import Mathlib

/-
Verification of the a5py data-access layer (ascot5 repository).

The Python modules under src/a5py are HDF5 / text-file adapters:
  * a5py/ascot5io/E_3DS.py    : 3D electric-field grid write/read
  * a5py/ascot5io/mrk_prt.py  : particle-marker write and evaluation helpers
  * a5py/ascot5io/options.py  : run-options dictionary write/read
  * a5py/ascotpy/libmhd.py    : quantity-evaluation dispatcher
  * a5py/ascot4interface/erad.py : legacy radial-profile text reader

Shallow embedding conventions:
  * An HDF5 file is a map from group path to group; a "disk" maps a file
    name to an open-able file.  h5py.File(fn, "r") on a missing file raises
    OSError; indexing a missing group raises KeyError.  These are the
    low-level errors the read paths may propagate.
  * Numeric values (IEEE f8 on disk) are modelled by exact rationals; the
    IO layer only transports values, so exact rationals are faithful for
    the data-movement claims.  Dataset dtypes are modelled by an explicit
    tag, and the float-to-int conversion performed by h5py when an integer
    dtype is declared is modelled as truncation toward zero (the C cast).
  * Python raising ValueError / AssertionError / TypeError is modelled by
    Except; a writer is a state transformer returning the new disk plus
    the result, and a raise before the file is opened returns the disk
    unchanged.
-/

namespace Ascot5

/-- Low-level errors produced by the h5py layer: OSError from opening a
missing file, KeyError from indexing a missing group or dataset, and the
numpy axis error from transposing a non-3D object. -/
inductive LowErr
  | oserror (fn : String)
  | keyError (path : String)
  | axisError (key : String)
deriving DecidableEq

/-- An HDF5 file: a map from group path to group content γ. -/
def HFile (γ : Type) : Type := String → Option γ

/-- A disk: a map from file name to file content.  `none` means the file
does not exist. -/
def Disk (γ : Type) : Type := String → Option (HFile γ)

/-- h5py.File(fn, "r"): returns the file or raises OSError. -/
def h5open (disk : Disk γ) (fn : String) : Except LowErr (HFile γ) :=
  match disk fn with
  | some f => .ok f
  | none => .error (.oserror fn)

/-- f[path]: returns the group or raises KeyError. -/
def h5group (f : HFile γ) (path : String) : Except LowErr γ :=
  match f path with
  | some g => .ok g
  | none => .error (.keyError path)

/-- Association-list lookup modelling Python dict / HDF5 group indexing
(first match wins; a dict has unique keys). -/
def alookup (l : List (String × α)) (key : String) : Option α :=
  match l with
  | [] => none
  | (k, v) :: t => if key = k then some v else alookup t key

/-- Dataset dtype tags used by the writers. -/
inductive DType
  | f8
  | i4
  | i8
deriving DecidableEq

/-- A numpy ndarray: dtype, shape and row-major flattened data. -/
structure NDArray where
  dtype : DType
  shape : List Nat
  data : List ℚ
deriving DecidableEq

/-! ## E_3DS.py : 3D electric field -/

/-- A 3-dimensional array of shape (n1, n2, n3). -/
structure Arr3 where
  n1 : Nat
  n2 : Nat
  n3 : Nat
  data : Fin n1 → Fin n2 → Fin n3 → ℚ

/-- numpy .shape of a 3D array. -/
def Arr3.shape (a : Arr3) : Nat × Nat × Nat := (a.n1, a.n2, a.n3)

/-- np.transpose(a, (2,1,0)): axis order reversed. -/
def np_transpose210 (a : Arr3) : Arr3 :=
  ⟨a.n3, a.n2, a.n1, fun i j k => a.data k j i⟩

/-- Datasets appearing in an E_3DS group: f8 scalars, i4 scalars and the
3D field arrays. -/
inductive E3Data
  | f8s (x : ℚ)
  | i4s (x : Int)
  | a3 (a : Arr3)

/-- An E_3DS group is the dict of its datasets. -/
def E3Group : Type := List (String × E3Data)

/-- Modelled from the spec: `add_group` (in `_iohelpers/fileapi.py`, not
under src/) creates a group named `<type>_<qid>` with a fresh QID under the
parent and stamps the metadata attributes.  The fresh QID is modelled as an
explicit argument and the resulting path is `parent/type_qid`, matching the
path `E_3DS.read_hdf5` looks up. -/
def add_group_path (parent typ qid : String) : String :=
  parent ++ "/" ++ typ ++ "_" ++ qid

/-- E_3DS.write_hdf5: validate the three field-array shapes against
(nr, nphi, nz), transpose each to (nz, nphi, nr) storage order, then open
the file in append mode and create the datasets.  A ValueError raised by
the validation leaves the disk untouched. -/
def E3DS_write_hdf5 (disk : Disk E3Group) (fn : String)
    (rmin rmax : ℚ) (nr : Nat) (zmin zmax : ℚ) (nz : Nat)
    (phimin phimax : ℚ) (nphi : Nat) (er ephi ez : Arr3) (qid : String) :
    Disk E3Group × Except String String :=
  if er.shape ≠ (nr, nphi, nz) then
    (disk, .error "ER has an inconsinstent shape.")
  else if ephi.shape ≠ (nr, nphi, nz) then
    (disk, .error "Ephi has an inconsinstent shape.")
  else if ez.shape ≠ (nr, nphi, nz) then
    (disk, .error "Ez has an inconsinstent shape.")
  else
    let er2 := np_transpose210 er
    let ephi2 := np_transpose210 ephi
    let ez2 := np_transpose210 ez
    let path := add_group_path "efield" "E_3DS" qid
    let gname := "E_3DS_" ++ qid
    let g : E3Group :=
      [("rmin", .f8s rmin), ("rmax", .f8s rmax), ("nr", .i4s nr),
       ("phimin", .f8s phimin), ("phimax", .f8s phimax), ("nphi", .i4s nphi),
       ("zmin", .f8s zmin), ("zmax", .f8s zmax), ("nz", .i4s nz),
       ("er", .a3 er2), ("ephi", .a3 ephi2), ("ez", .a3 ez2)]
    let file0 : HFile E3Group := (disk fn).getD (fun _ => none)
    let file1 : HFile E3Group := fun p => if p = path then some g else file0 p
    (fun name => if name = fn then some file1 else disk name, .ok gname)

/-- out[key] for a key expected to hold a 3D array: KeyError when absent,
numpy axis error when np.transpose(x, (2,1,0)) is applied to a non-3D
dataset. -/
def getA3 (g : E3Group) (key : String) : Except LowErr Arr3 :=
  match alookup g key with
  | some (.a3 a) => .ok a
  | some _ => .error (.axisError key)
  | none => .error (.keyError key)

/-- Python dict assignment out[key] = v for a key already present. -/
def setKey (g : E3Group) (key : String) (v : E3Data) : E3Group :=
  g.map (fun kv => if kv.1 = key then (key, v) else kv)

/-- E_3DS.read_hdf5: open the file, look up group efield/E_3DS_qid, copy
every dataset into the output dict, then transpose er, ephi and ez with
axes (2,1,0). -/
def E3DS_read_hdf5 (disk : Disk E3Group) (fn qid : String) :
    Except LowErr E3Group := do
  let f ← h5open disk fn
  let g ← h5group f ("efield" ++ "/E_3DS_" ++ qid)
  let er ← getA3 g "er"
  let ephi ← getA3 g "ephi"
  let ez ← getA3 g "ez"
  .ok (setKey (setKey (setKey g "er" (.a3 (np_transpose210 er)))
        "ephi" (.a3 (np_transpose210 ephi))) "ez" (.a3 (np_transpose210 ez)))

theorem np_transpose210_involutive (a : Arr3) :
    np_transpose210 (np_transpose210 a) = a := rfl

/-- A constant 3D array used as concrete test data. -/
def wArr (a b c : Nat) (v : ℚ) : Arr3 := ⟨a, b, c, fun _ _ _ => v⟩

/-- A disk holding no file at all. -/
def emptyE3Disk : Disk E3Group := fun _ => none

/-- C1: writing er, ephi, ez of shape (nr,nphi,nz) with E_3DS.write_hdf5 and
reading the written group back with E_3DS.read_hdf5 returns the three field
arrays exactly equal to the inputs: the (2,1,0) transposition applied before
storing is exactly undone by the (2,1,0) transposition applied on read. -/
theorem E3DS_write_read_roundtrip
    (disk : Disk E3Group) (fn : String) (rmin rmax : ℚ) (nr : Nat)
    (zmin zmax : ℚ) (nz : Nat) (phimin phimax : ℚ) (nphi : Nat)
    (er ephi ez : Arr3) (qid : String)
    (her : er.shape = (nr, nphi, nz)) (hephi : ephi.shape = (nr, nphi, nz))
    (hez : ez.shape = (nr, nphi, nz)) :
    ∃ out : E3Group,
      E3DS_read_hdf5
        (E3DS_write_hdf5 disk fn rmin rmax nr zmin zmax nz phimin phimax
          nphi er ephi ez qid).1 fn qid = .ok out ∧
      alookup out "er" = some (.a3 er) ∧
      alookup out "ephi" = some (.a3 ephi) ∧
      alookup out "ez" = some (.a3 ez) := by
  simp only [E3DS_write_hdf5, her, hephi, hez, ne_eq, not_true_eq_false,
    if_false, ite_false]
  simp [E3DS_read_hdf5, h5open, h5group, getA3, setKey, alookup,
    add_group_path, np_transpose210_involutive, bind, Except.bind]

/-- C1 witness: a concrete round trip with er, ephi, ez of shape (2,1,1). -/
theorem E3DS_write_read_roundtrip_witness :
    (wArr 2 1 1 5).shape = (2, 1, 1) ∧
    ∃ out : E3Group,
      E3DS_read_hdf5
        (E3DS_write_hdf5 emptyE3Disk "f.h5" 0 1 2 0 1 1 0 360 1
          (wArr 2 1 1 5) (wArr 2 1 1 6) (wArr 2 1 1 7) "q").1 "f.h5" "q" =
        .ok out ∧
      alookup out "er" = some (.a3 (wArr 2 1 1 5)) ∧
      alookup out "ephi" = some (.a3 (wArr 2 1 1 6)) ∧
      alookup out "ez" = some (.a3 (wArr 2 1 1 7)) :=
  ⟨rfl, E3DS_write_read_roundtrip emptyE3Disk "f.h5" 0 1 2 0 1 1 0 360 1
    (wArr 2 1 1 5) (wArr 2 1 1 6) (wArr 2 1 1 7) "q" rfl rfl rfl⟩

/-- C2: if any of er, ephi, ez does not have shape (nr,nphi,nz) then
E_3DS.write_hdf5 raises ValueError before the HDF5 file is opened, so the
disk is unchanged. -/
theorem E3DS_write_invalid_shape_error
    (disk : Disk E3Group) (fn : String) (rmin rmax : ℚ) (nr : Nat)
    (zmin zmax : ℚ) (nz : Nat) (phimin phimax : ℚ) (nphi : Nat)
    (er ephi ez : Arr3) (qid : String)
    (h : er.shape ≠ (nr, nphi, nz) ∨ ephi.shape ≠ (nr, nphi, nz) ∨
      ez.shape ≠ (nr, nphi, nz)) :
    (E3DS_write_hdf5 disk fn rmin rmax nr zmin zmax nz phimin phimax nphi
      er ephi ez qid).1 = disk ∧
    ∃ e, (E3DS_write_hdf5 disk fn rmin rmax nr zmin zmax nz phimin phimax
      nphi er ephi ez qid).2 = .error e := by
  unfold E3DS_write_hdf5
  split_ifs with h1 h2 h3
  · exact ⟨rfl, _, rfl⟩
  · exact ⟨rfl, _, rfl⟩
  · exact ⟨rfl, _, rfl⟩
  · rcases h with h | h | h <;> simp_all

/-- C2 witness: er of shape (1,1,1) against declared grid (2,1,1) leaves a
concrete empty disk unchanged and yields a ValueError. -/
theorem E3DS_write_invalid_shape_error_witness :
    ((wArr 1 1 1 5).shape ≠ (2, 1, 1) ∨ (wArr 2 1 1 6).shape ≠ (2, 1, 1) ∨
      (wArr 2 1 1 7).shape ≠ (2, 1, 1)) ∧
    ((E3DS_write_hdf5 emptyE3Disk "f.h5" 0 1 2 0 1 1 0 360 1
        (wArr 1 1 1 5) (wArr 2 1 1 6) (wArr 2 1 1 7) "q").1 = emptyE3Disk ∧
      ∃ e, (E3DS_write_hdf5 emptyE3Disk "f.h5" 0 1 2 0 1 1 0 360 1
        (wArr 1 1 1 5) (wArr 2 1 1 6) (wArr 2 1 1 7) "q").2 = .error e) :=
  ⟨Or.inl (by decide),
    E3DS_write_invalid_shape_error emptyE3Disk "f.h5" 0 1 2 0 1 1 0 360 1
      (wArr 1 1 1 5) (wArr 2 1 1 6) (wArr 2 1 1 7) "q" (Or.inl (by decide))⟩

/-! ## mrk_prt.py : particle markers -/

/-- An HDF5 dataset together with its unit attribute. -/
structure HDataset where
  arr : NDArray
  unit : String
deriving DecidableEq

/-- A marker group is the dict of its datasets. -/
def MrkGroup : Type := List (String × HDataset)

/-- Truncation of a rational toward zero: the C float-to-integer cast that
h5py applies when data is stored into a dataset of integer dtype. -/
def truncRat (q : ℚ) : Int := q.num.tdiv (q.den : Int)

/-- Value stored on disk after the float-to-integer conversion. -/
def intCast (q : ℚ) : ℚ := ((truncRat q : Int) : ℚ)

/-- A sequence of `if size != n: raise ValueError(msg)` statements, run in
order: the first failing check gives the raised message, `none` means no
check raises. -/
def firstError (n : Nat) : List (Nat × String) → Option String
  | [] => none
  | (len, msg) :: t => if len ≠ n then some msg else firstError n t

/-- The validation prologue of mrk_prt.write_hdf5: the thirteen size
checks in source order with the source ValueError messages. -/
def mrk_sizeError (n : Nat)
    (ids mass charge r phi z vr vphi vz anum znum weight time : List ℚ) :
    Option String :=
  firstError n
    [(ids.length, "Inconsistent size for ids."),
     (mass.length, "Inconsistent size for mass."),
     (charge.length, "Inconsistent size for charge."),
     (r.length, "Inconsistent size for r."),
     (phi.length, "Inconsistent size for phi."),
     (z.length, "Inconsistent size for z."),
     (vr.length, "Inconsistent size for vR."),
     (vphi.length, "Inconsistent size for vphi."),
     (vz.length, "Inconsistent size for vz."),
     (anum.length, "Inconsistent size for anum."),
     (znum.length, "Inconsistent size for znum."),
     (weight.length, "Inconsistent size for weight."),
     (time.length, "Inconsistent size for time.")]

/-- The dataset dict created by a successful mrk_prt.write_hdf5 call, in
source order, with the dtype, shape and unit attribute each
create_dataset call declares.  Declaring an integer dtype (i4 for charge,
anum, znum; i8 for n and id) makes h5py convert the supplied data with
the C cast, truncation toward zero. -/
def mrk_group (n : Nat)
    (ids mass charge r phi z vr vphi vz anum znum weight time : List ℚ) :
    MrkGroup :=
  [("n", ⟨⟨.i8, [1, 1], [(n : ℚ)]⟩, "1"⟩),
   ("r", ⟨⟨.f8, [n, 1], r⟩, "m"⟩),
   ("phi", ⟨⟨.f8, [n, 1], phi⟩, "deg"⟩),
   ("z", ⟨⟨.f8, [n, 1], z⟩, "m"⟩),
   ("vr", ⟨⟨.f8, [n, 1], vr⟩, "m/s"⟩),
   ("vphi", ⟨⟨.f8, [n, 1], vphi⟩, "m/s"⟩),
   ("vz", ⟨⟨.f8, [n, 1], vz⟩, "m/s"⟩),
   ("mass", ⟨⟨.f8, [n, 1], mass⟩, "amu"⟩),
   ("charge", ⟨⟨.i4, [n, 1], charge.map intCast⟩, "e"⟩),
   ("anum", ⟨⟨.i4, [n, 1], anum.map intCast⟩, "1"⟩),
   ("znum", ⟨⟨.i4, [n, 1], znum.map intCast⟩, "1"⟩),
   ("weight", ⟨⟨.f8, [n, 1], weight⟩, "markers/s"⟩),
   ("time", ⟨⟨.f8, [n, 1], time⟩, "s"⟩),
   ("id", ⟨⟨.i8, [n, 1], ids.map intCast⟩, "1"⟩)]

/-- mrk_prt.write_hdf5: run the thirteen size checks (raising ValueError
before the file is opened when one fails), then open the file and create
the datasets: shape (n,1), dtype f8 for the real quantities, i4 for
charge, anum and znum, i8 for n and id.  An integer dtype makes h5py
convert the supplied data with the C cast (truncation toward zero).  The
fresh QID generated by add_group is an explicit argument, as for E_3DS. -/
def mrk_prt_write_hdf5 (disk : Disk MrkGroup) (fn : String) (n : Nat)
    (ids mass charge r phi z vr vphi vz anum znum weight time : List ℚ)
    (qid : String) : Disk MrkGroup × Except String String :=
  match mrk_sizeError n ids mass charge r phi z vr vphi vz anum znum
      weight time with
  | some e => (disk, .error e)
  | none =>
    let path := add_group_path "marker" "prt" qid
    let g : MrkGroup :=
      mrk_group n ids mass charge r phi z vr vphi vz anum znum weight time
    let file0 : HFile MrkGroup := (disk fn).getD (fun _ => none)
    let file1 : HFile MrkGroup := fun p => if p = path then some g else file0 p
    (fun name => if name = fn then some file1 else disk name,
     .ok ("prt_" ++ qid))

/-- A disk holding no marker file. -/
def emptyMrkDisk : Disk MrkGroup := fun _ => none

theorem firstError_eq_none_iff (n : Nat) (l : List (Nat × String)) :
    firstError n l = none ↔ ∀ p ∈ l, p.1 = n := by
  induction l with
  | nil => simp [firstError]
  | cons p t ih =>
    obtain ⟨len, msg⟩ := p
    by_cases h : len = n
    · subst h
      simp [firstError, ih]
    · simp [firstError, h]

theorem firstError_ne_none (n : Nat) (l : List (Nat × String))
    (h : ∃ p ∈ l, p.1 ≠ n) : ∃ e, firstError n l = some e := by
  rw [← Option.ne_none_iff_exists']
  intro hnone
  rw [firstError_eq_none_iff] at hnone
  obtain ⟨p, hp, hne⟩ := h
  exact hne (hnone p hp)

theorem mrk_sizeError_some (n : Nat)
    (ids mass charge r phi z vr vphi vz anum znum weight time : List ℚ)
    (h : ids.length ≠ n ∨ mass.length ≠ n ∨ charge.length ≠ n ∨
      r.length ≠ n ∨ phi.length ≠ n ∨ z.length ≠ n ∨ vr.length ≠ n ∨
      vphi.length ≠ n ∨ vz.length ≠ n ∨ anum.length ≠ n ∨ znum.length ≠ n ∨
      weight.length ≠ n ∨ time.length ≠ n) :
    ∃ e, mrk_sizeError n ids mass charge r phi z vr vphi vz anum znum
      weight time = some e := by
  apply firstError_ne_none
  rcases h with h | h | h | h | h | h | h | h | h | h | h | h | h
  · exact ⟨(ids.length, "Inconsistent size for ids."), by simp, h⟩
  · exact ⟨(mass.length, "Inconsistent size for mass."), by simp, h⟩
  · exact ⟨(charge.length, "Inconsistent size for charge."), by simp, h⟩
  · exact ⟨(r.length, "Inconsistent size for r."), by simp, h⟩
  · exact ⟨(phi.length, "Inconsistent size for phi."), by simp, h⟩
  · exact ⟨(z.length, "Inconsistent size for z."), by simp, h⟩
  · exact ⟨(vr.length, "Inconsistent size for vR."), by simp, h⟩
  · exact ⟨(vphi.length, "Inconsistent size for vphi."), by simp, h⟩
  · exact ⟨(vz.length, "Inconsistent size for vz."), by simp, h⟩
  · exact ⟨(anum.length, "Inconsistent size for anum."), by simp, h⟩
  · exact ⟨(znum.length, "Inconsistent size for znum."), by simp, h⟩
  · exact ⟨(weight.length, "Inconsistent size for weight."), by simp, h⟩
  · exact ⟨(time.length, "Inconsistent size for time."), by simp, h⟩

theorem mrk_sizeError_none (n : Nat)
    (ids mass charge r phi z vr vphi vz anum znum weight time : List ℚ)
    (e1 : ids.length = n) (e2 : mass.length = n) (e3 : charge.length = n)
    (e4 : r.length = n) (e5 : phi.length = n) (e6 : z.length = n)
    (e7 : vr.length = n) (e8 : vphi.length = n) (e9 : vz.length = n)
    (e10 : anum.length = n) (e11 : znum.length = n)
    (e12 : weight.length = n) (e13 : time.length = n) :
    mrk_sizeError n ids mass charge r phi z vr vphi vz anum znum weight
      time = none := by
  rw [mrk_sizeError, firstError_eq_none_iff]
  intro p hp
  simp only [List.mem_cons, List.not_mem_nil, or_false] at hp
  rcases hp with rfl | rfl | rfl | rfl | rfl | rfl | rfl | rfl | rfl |
    rfl | rfl | rfl | rfl <;> assumption

/-- C3: if any of the thirteen per-marker arrays has size different from n,
mrk_prt.write_hdf5 raises ValueError before the file is opened or modified;
when all thirteen sizes equal n the validation raises nothing and the write
succeeds. -/
theorem mrk_prt_write_size_validation
    (disk : Disk MrkGroup) (fn : String) (n : Nat)
    (ids mass charge r phi z vr vphi vz anum znum weight time : List ℚ)
    (qid : String) :
    ((ids.length ≠ n ∨ mass.length ≠ n ∨ charge.length ≠ n ∨
      r.length ≠ n ∨ phi.length ≠ n ∨ z.length ≠ n ∨ vr.length ≠ n ∨
      vphi.length ≠ n ∨ vz.length ≠ n ∨ anum.length ≠ n ∨ znum.length ≠ n ∨
      weight.length ≠ n ∨ time.length ≠ n) →
      ((mrk_prt_write_hdf5 disk fn n ids mass charge r phi z vr vphi vz
          anum znum weight time qid).1 = disk ∧
        ∃ e, (mrk_prt_write_hdf5 disk fn n ids mass charge r phi z vr vphi
          vz anum znum weight time qid).2 = .error e)) ∧
    ((ids.length = n ∧ mass.length = n ∧ charge.length = n ∧
      r.length = n ∧ phi.length = n ∧ z.length = n ∧ vr.length = n ∧
      vphi.length = n ∧ vz.length = n ∧ anum.length = n ∧ znum.length = n ∧
      weight.length = n ∧ time.length = n) →
      ∃ gname, (mrk_prt_write_hdf5 disk fn n ids mass charge r phi z vr
        vphi vz anum znum weight time qid).2 = .ok gname) := by
  constructor
  · intro h
    obtain ⟨e, he⟩ := mrk_sizeError_some n ids mass charge r phi z vr vphi
      vz anum znum weight time h
    unfold mrk_prt_write_hdf5
    rw [he]
    exact ⟨rfl, e, rfl⟩
  · rintro ⟨e1, e2, e3, e4, e5, e6, e7, e8, e9, e10, e11, e12, e13⟩
    refine ⟨"prt_" ++ qid, ?_⟩
    unfold mrk_prt_write_hdf5
    rw [mrk_sizeError_none n ids mass charge r phi z vr vphi vz anum znum
      weight time e1 e2 e3 e4 e5 e6 e7 e8 e9 e10 e11 e12 e13]

/-- A size-1 marker column used as concrete test data. -/
def wOne : List ℚ := [1]

/-- C3 witness: ids of size 0 against n = 1 raises and leaves the disk
unchanged, while a fully consistent call with n = 1 succeeds. -/
theorem mrk_prt_write_size_validation_witness :
    (([] : List ℚ).length ≠ 1 ∨ wOne.length ≠ 1 ∨ wOne.length ≠ 1 ∨
      wOne.length ≠ 1 ∨ wOne.length ≠ 1 ∨ wOne.length ≠ 1 ∨
      wOne.length ≠ 1 ∨ wOne.length ≠ 1 ∨ wOne.length ≠ 1 ∨
      wOne.length ≠ 1 ∨ wOne.length ≠ 1 ∨ wOne.length ≠ 1 ∨
      wOne.length ≠ 1) ∧
    ((mrk_prt_write_hdf5 emptyMrkDisk "m.h5" 1 [] wOne wOne wOne wOne wOne
        wOne wOne wOne wOne wOne wOne wOne "q").1 = emptyMrkDisk ∧
      ∃ e, (mrk_prt_write_hdf5 emptyMrkDisk "m.h5" 1 [] wOne wOne wOne wOne
        wOne wOne wOne wOne wOne wOne wOne wOne "q").2 = .error e) ∧
    ∃ gname, (mrk_prt_write_hdf5 emptyMrkDisk "m.h5" 1 wOne wOne wOne wOne
      wOne wOne wOne wOne wOne wOne wOne wOne wOne "q").2 = .ok gname :=
  ⟨Or.inl (by decide),
    (mrk_prt_write_size_validation emptyMrkDisk "m.h5" 1 [] wOne wOne wOne
      wOne wOne wOne wOne wOne wOne wOne wOne wOne "q").1
      (Or.inl (by decide)),
    (mrk_prt_write_size_validation emptyMrkDisk "m.h5" 1 wOne wOne wOne
      wOne wOne wOne wOne wOne wOne wOne wOne wOne wOne "q").2
      (by decide)⟩

/-- C8: on every successful call, mrk_prt.write_hdf5 stores charge, anum
and znum as 32-bit integer datasets and id as a 64-bit integer dataset, so
non-integer input values are truncated on disk; every other per-marker
quantity is stored as a 64-bit float dataset of shape (n,1) with the input
values unchanged. -/
theorem mrk_prt_write_dtypes
    (disk : Disk MrkGroup) (fn : String) (n : Nat)
    (ids mass charge r phi z vr vphi vz anum znum weight time : List ℚ)
    (qid : String)
    (e1 : ids.length = n) (e2 : mass.length = n) (e3 : charge.length = n)
    (e4 : r.length = n) (e5 : phi.length = n) (e6 : z.length = n)
    (e7 : vr.length = n) (e8 : vphi.length = n) (e9 : vz.length = n)
    (e10 : anum.length = n) (e11 : znum.length = n)
    (e12 : weight.length = n) (e13 : time.length = n) :
    (∃ file1,
      (mrk_prt_write_hdf5 disk fn n ids mass charge r phi z vr vphi vz
        anum znum weight time qid).1 fn = some file1 ∧
      file1 (add_group_path "marker" "prt" qid) = some (mrk_group n ids
        mass charge r phi z vr vphi vz anum znum weight time)) ∧
    (let g := mrk_group n ids mass charge r phi z vr vphi vz anum znum
      weight time
    alookup g "charge" = some ⟨⟨.i4, [n, 1], charge.map intCast⟩, "e"⟩ ∧
    alookup g "anum" = some ⟨⟨.i4, [n, 1], anum.map intCast⟩, "1"⟩ ∧
    alookup g "znum" = some ⟨⟨.i4, [n, 1], znum.map intCast⟩, "1"⟩ ∧
    alookup g "id" = some ⟨⟨.i8, [n, 1], ids.map intCast⟩, "1"⟩ ∧
    alookup g "r" = some ⟨⟨.f8, [n, 1], r⟩, "m"⟩ ∧
    alookup g "phi" = some ⟨⟨.f8, [n, 1], phi⟩, "deg"⟩ ∧
    alookup g "z" = some ⟨⟨.f8, [n, 1], z⟩, "m"⟩ ∧
    alookup g "vr" = some ⟨⟨.f8, [n, 1], vr⟩, "m/s"⟩ ∧
    alookup g "vphi" = some ⟨⟨.f8, [n, 1], vphi⟩, "m/s"⟩ ∧
    alookup g "vz" = some ⟨⟨.f8, [n, 1], vz⟩, "m/s"⟩ ∧
    alookup g "mass" = some ⟨⟨.f8, [n, 1], mass⟩, "amu"⟩ ∧
    alookup g "weight" = some ⟨⟨.f8, [n, 1], weight⟩, "markers/s"⟩ ∧
    alookup g "time" = some ⟨⟨.f8, [n, 1], time⟩, "s"⟩) := by
  constructor
  · unfold mrk_prt_write_hdf5
    rw [mrk_sizeError_none n ids mass charge r phi z vr vphi vz anum znum
      weight time e1 e2 e3 e4 e5 e6 e7 e8 e9 e10 e11 e12 e13]
    refine ⟨fun p =>
      if p = add_group_path "marker" "prt" qid then
        some (mrk_group n ids mass charge r phi z vr vphi vz anum znum
          weight time)
      else ((disk fn).getD (fun _ => none)) p, by simp, by simp⟩
  · refine ⟨?_, ?_, ?_, ?_, ?_, ?_, ?_, ?_, ?_, ?_, ?_, ?_, ?_⟩ <;>
      simp [mrk_group, alookup]

/-- C8 witness: a single marker with non-integer charge 3/2, znum 5/2 and
id 7/2 is stored with the truncated values 1, 2 and 3. -/
theorem mrk_prt_write_dtypes_witness :
    [(mkRat 3 2)].length = 1 ∧ [(mkRat 3 2)].map intCast = [1] ∧
    [(mkRat 5 2)].map intCast = [2] ∧ [(mkRat 7 2)].map intCast = [3] ∧
    ((∃ file1,
      (mrk_prt_write_hdf5 emptyMrkDisk "m.h5" 1 [mkRat 7 2] [1] [mkRat 3 2] [1] [1]
        [1] [1] [1] [1] [2] [mkRat 5 2] [1] [1] "q").1 "m.h5" = some file1 ∧
      file1 (add_group_path "marker" "prt" "q") = some (mrk_group 1 [mkRat 7 2]
        [1] [mkRat 3 2] [1] [1] [1] [1] [1] [1] [2] [mkRat 5 2] [1] [1])) ∧
    (let g := mrk_group 1 [mkRat 7 2] [1] [mkRat 3 2] [1] [1] [1] [1] [1] [1] [2]
      [mkRat 5 2] [1] [1]
    alookup g "charge" =
      some ⟨⟨.i4, [1, 1], [(mkRat 3 2)].map intCast⟩, "e"⟩ ∧
    alookup g "anum" = some ⟨⟨.i4, [1, 1], [(2 : ℚ)].map intCast⟩, "1"⟩ ∧
    alookup g "znum" =
      some ⟨⟨.i4, [1, 1], [(mkRat 5 2)].map intCast⟩, "1"⟩ ∧
    alookup g "id" = some ⟨⟨.i8, [1, 1], [(mkRat 7 2)].map intCast⟩, "1"⟩ ∧
    alookup g "r" = some ⟨⟨.f8, [1, 1], [1]⟩, "m"⟩ ∧
    alookup g "phi" = some ⟨⟨.f8, [1, 1], [1]⟩, "deg"⟩ ∧
    alookup g "z" = some ⟨⟨.f8, [1, 1], [1]⟩, "m"⟩ ∧
    alookup g "vr" = some ⟨⟨.f8, [1, 1], [1]⟩, "m/s"⟩ ∧
    alookup g "vphi" = some ⟨⟨.f8, [1, 1], [1]⟩, "m/s"⟩ ∧
    alookup g "vz" = some ⟨⟨.f8, [1, 1], [1]⟩, "m/s"⟩ ∧
    alookup g "mass" = some ⟨⟨.f8, [1, 1], [1]⟩, "amu"⟩ ∧
    alookup g "weight" = some ⟨⟨.f8, [1, 1], [1]⟩, "markers/s"⟩ ∧
    alookup g "time" = some ⟨⟨.f8, [1, 1], [1]⟩, "s"⟩)) :=
  ⟨rfl, by decide, by decide, by decide,
    mrk_prt_write_dtypes emptyMrkDisk "m.h5" 1 [mkRat 7 2] [1] [mkRat 3 2] [1] [1]
      [1] [1] [1] [1] [2] [mkRat 5 2] [1] [1] "q" rfl rfl rfl rfl rfl rfl rfl
      rfl rfl rfl rfl rfl rfl⟩

/-! ## options.py : run options -/

/-- An options group on disk: the date and description attributes stamped
by add_group, plus the dict of datasets. -/
structure OptGroup where
  date : String
  description : String
  datasets : List (String × NDArray)

/-- np.array(x).astype("f8"): in the exact-rational model the values are
kept and the dtype becomes f8. -/
def np_astype_f8 (a : NDArray) : NDArray := { a with dtype := .f8 }

/-- The datasets created by options.write_hdf5: every entry except the
metadata keys qid, date and description is converted to a numpy array,
cast to f8, and written as a one-dimensional dataset of length data.size,
where numpy's .size is the product of the shape; HDF5 stores the data
flattened. -/
def opt_datasets (options : List (String × NDArray)) :
    List (String × NDArray) :=
  options.filterMap (fun kv =>
    if kv.1 ≠ "qid" ∧ kv.1 ≠ "date" ∧ kv.1 ≠ "description" then
      let data := np_astype_f8 kv.2
      some (kv.1, ⟨data.dtype, [data.shape.prod], data.data⟩)
    else none)

/-- Modelled from the spec: the options module's `add_group` (imported
from `ascot5file.py`, not under src/) creates a new group `opt-<qid>` with
a fresh QID under the parent "options" and stamps the date and description
attributes; the path matches what options.read_hdf5 looks up. -/
def add_group_path_opt (qid : String) : String :=
  "options" ++ "/opt-" ++ qid

/-- options.write_hdf5: open the file in append mode, create the group,
and create one dataset per non-metadata entry.  No validation is
performed.  Returns g.name, the absolute path of the new group. -/
def opt_write_hdf5 (disk : Disk OptGroup) (fn qid date desc : String)
    (options : List (String × NDArray)) : Disk OptGroup × String :=
  let path := add_group_path_opt qid
  let g : OptGroup := ⟨date, desc, opt_datasets options⟩
  let file0 : HFile OptGroup := (disk fn).getD (fun _ => none)
  let file1 : HFile OptGroup := fun p => if p = path then some g else file0 p
  (fun name => if name = fn then some file1 else disk name, "/" ++ path)

/-- The dict returned by options.read_hdf5 with info=False: the qid, the
date and description attributes, and every dataset of the group. -/
structure OptOut where
  qid : String
  date : String
  description : String
  data : List (String × NDArray)

/-- options.read_hdf5 with info=False: open the file, look up
options/opt-qid, copy the metadata attributes and every dataset.  (The
info=True branch merges the values into get_default's comment list and is
not needed here.) -/
def opt_read_hdf5 (disk : Disk OptGroup) (fn qid : String) :
    Except LowErr OptOut := do
  let f ← h5open disk fn
  let g ← h5group f ("options" ++ "/opt-" ++ qid)
  .ok ⟨qid, g.date, g.description, g.datasets⟩

theorem alookup_opt_datasets (options : List (String × NDArray))
    (k : String) (v : NDArray) (hk : alookup options k = some v)
    (h1 : k ≠ "qid") (h2 : k ≠ "date") (h3 : k ≠ "description") :
    alookup (opt_datasets options) k =
      some ⟨.f8, [v.shape.prod], v.data⟩ := by
  induction options with
  | nil => simp [alookup] at hk
  | cons kv t ih =>
    obtain ⟨k0, v0⟩ := kv
    by_cases hkk : k = k0
    · subst hkk
      rw [alookup, if_pos rfl] at hk
      obtain rfl := Option.some.inj hk
      simp [opt_datasets, List.filterMap_cons, h1, h2, h3, alookup,
        np_astype_f8]
    · have hk2 : alookup t k = some v := by
        rw [alookup] at hk
        simpa [hkk] using hk
      by_cases hmeta : k0 ≠ "qid" ∧ k0 ≠ "date" ∧ k0 ≠ "description"
      · simp only [opt_datasets, List.filterMap_cons, if_pos hmeta]
        rw [alookup]
        simp only [if_neg hkk]
        exact ih hk2
      · simp only [opt_datasets, List.filterMap_cons, if_neg hmeta]
        exact ih hk2

theorem alookup_opt_datasets_meta (options : List (String × NDArray))
    (k : String) (hk : k = "qid" ∨ k = "date" ∨ k = "description") :
    alookup (opt_datasets options) k = none := by
  induction options with
  | nil => simp [opt_datasets, alookup]
  | cons kv t ih =>
    obtain ⟨k0, v0⟩ := kv
    by_cases hmeta : k0 ≠ "qid" ∧ k0 ≠ "date" ∧ k0 ≠ "description"
    · have hkk : k ≠ k0 := by
        rcases hk with rfl | rfl | rfl
        · exact fun hh => hmeta.1 hh.symm
        · exact fun hh => hmeta.2.1 hh.symm
        · exact fun hh => hmeta.2.2 hh.symm
      simp only [opt_datasets, List.filterMap_cons, if_pos hmeta]
      rw [alookup]
      simp only [if_neg hkk]
      exact ih
    · simp only [opt_datasets, List.filterMap_cons, if_neg hmeta]
      exact ih

/-- A disk holding no options file. -/
def emptyOptDisk : Disk OptGroup := fun _ => none

/-- C9: options.write_hdf5 never creates datasets named qid, date or
description, and every other entry is converted to a numpy array, cast to
f8, and written as a one-dimensional dataset whose length is the value's
total element count, regardless of the input dtype or shape. -/
theorem opt_write_datasets_spec
    (disk : Disk OptGroup) (fn qid date desc : String)
    (options : List (String × NDArray)) :
    (∃ file1,
      (opt_write_hdf5 disk fn qid date desc options).1 fn = some file1 ∧
      file1 (add_group_path_opt qid) =
        some ⟨date, desc, opt_datasets options⟩) ∧
    alookup (opt_datasets options) "qid" = none ∧
    alookup (opt_datasets options) "date" = none ∧
    alookup (opt_datasets options) "description" = none ∧
    ∀ k v, alookup options k = some v → k ≠ "qid" → k ≠ "date" →
      k ≠ "description" →
      alookup (opt_datasets options) k =
        some ⟨.f8, [v.shape.prod], v.data⟩ := by
  refine ⟨⟨fun p => if p = add_group_path_opt qid then
      some ⟨date, desc, opt_datasets options⟩
    else ((disk fn).getD (fun _ => none)) p, by simp [opt_write_hdf5],
      by simp⟩,
    alookup_opt_datasets_meta options "qid" (Or.inl rfl),
    alookup_opt_datasets_meta options "date" (Or.inr (Or.inl rfl)),
    alookup_opt_datasets_meta options "description"
      (Or.inr (Or.inr rfl)), ?_⟩
  intro k v hk h1 h2 h3
  exact alookup_opt_datasets options k v hk h1 h2 h3

/-- Concrete options dict: a 2-element i8 column vector under key "A" and
an entry under the metadata key "qid". -/
def wOpts : List (String × NDArray) :=
  [("A", ⟨.i8, [2, 1], [4, 5]⟩), ("qid", ⟨.f8, [1], [0]⟩)]

/-- C9 witness: the "qid" entry creates no dataset, and the "A" entry is
stored as an f8 dataset of shape [2] with the flattened values. -/
theorem opt_write_datasets_spec_witness :
    (∃ file1,
      (opt_write_hdf5 emptyOptDisk "o.h5" "q" "date" "" wOpts).1 "o.h5" =
        some file1 ∧
      file1 (add_group_path_opt "q") =
        some ⟨"date", "", opt_datasets wOpts⟩) ∧
    alookup (opt_datasets wOpts) "qid" = none ∧
    alookup (opt_datasets wOpts) "A" =
      some ⟨.f8, [([2, 1] : List Nat).prod], [4, 5]⟩ :=
  ⟨(opt_write_datasets_spec emptyOptDisk "o.h5" "q" "date" "" wOpts).1,
    (opt_write_datasets_spec emptyOptDisk "o.h5" "q" "date" "" wOpts).2.1,
    (opt_write_datasets_spec emptyOptDisk "o.h5" "q" "date" ""
      wOpts).2.2.2.2 "A" ⟨.i8, [2, 1], [4, 5]⟩ rfl (by decide) (by decide)
      (by decide)⟩

/-- C4 counterexample: an options dict whose single entry is an f8 array
of shape (1,1) is read back as a flattened array of shape (1,): the round
trip does not reproduce the array bit-for-bit. -/
theorem opt_roundtrip_counterexample :
    ∃ out, opt_read_hdf5
        (opt_write_hdf5 emptyOptDisk "o.h5" "q" "d" ""
          [("A", ⟨.f8, [1, 1], [5]⟩)]).1 "o.h5" "q" = .ok out ∧
      alookup out.data "A" ≠ some ⟨.f8, [1, 1], [5]⟩ := by
  refine ⟨⟨"q", "d", "", opt_datasets [("A", ⟨.f8, [1, 1], [5]⟩)]⟩, ?_, ?_⟩
  · simp [opt_read_hdf5, opt_write_hdf5, h5open, h5group,
      add_group_path_opt, bind, Except.bind]
  · decide

/-- C4 (amended): for every options dictionary whose non-metadata entries
are one-dimensional f8 arrays, writing with options.write_hdf5 and
reading back with options.read_hdf5 (info=False) reproduces every option
array exactly. -/
theorem opt_write_read_roundtrip_1d
    (disk : Disk OptGroup) (fn qid date desc : String)
    (options : List (String × NDArray)) (k : String) (v : NDArray)
    (hk : alookup options k = some v)
    (h1 : k ≠ "qid") (h2 : k ≠ "date") (h3 : k ≠ "description")
    (hdtype : v.dtype = .f8) (hshape : v.shape = [v.data.length]) :
    ∃ out, opt_read_hdf5
        (opt_write_hdf5 disk fn qid date desc options).1 fn qid =
        .ok out ∧
      alookup out.data k = some v := by
  refine ⟨⟨qid, date, desc, opt_datasets options⟩, ?_, ?_⟩
  · simp [opt_read_hdf5, opt_write_hdf5, h5open, h5group,
      add_group_path_opt, bind, Except.bind]
  · rw [alookup_opt_datasets options k v hk h1 h2 h3]
    obtain ⟨dt, sh, da⟩ := v
    simp only at hdtype hshape
    subst hdtype
    subst hshape
    simp

/-- C4 witness: a one-dimensional f8 array of length 2 survives the round
trip unchanged. -/
theorem opt_write_read_roundtrip_1d_witness :
    alookup [("B", (⟨.f8, [2], [3, 4]⟩ : NDArray))] "B" =
      some ⟨.f8, [2], [3, 4]⟩ ∧
    ∃ out, opt_read_hdf5
        (opt_write_hdf5 emptyOptDisk "o.h5" "q" "d" ""
          [("B", ⟨.f8, [2], [3, 4]⟩)]).1 "o.h5" "q" = .ok out ∧
      alookup out.data "B" = some ⟨.f8, [2], [3, 4]⟩ :=
  ⟨by decide,
    opt_write_read_roundtrip_1d emptyOptDisk "o.h5" "q" "d" ""
      [("B", ⟨.f8, [2], [3, 4]⟩)] "B" ⟨.f8, [2], [3, 4]⟩ (by decide)
      (by decide) (by decide) (by decide) rfl rfl⟩

/-! ## Error propagation of the read paths -/

/-- C5: the read paths have no error handling of their own: whenever
opening the HDF5 file or looking up the group fails, E_3DS.read_hdf5 and
options.read_hdf5 return exactly the low-level error produced by the h5py
layer, never catching it, converting it, or returning a partial result. -/
theorem read_paths_propagate_errors
    (dE : Disk E3Group) (dO : Disk OptGroup) (fn qid : String)
    (e : LowErr) :
    (h5open dE fn = .error e → E3DS_read_hdf5 dE fn qid = .error e) ∧
    (∀ f, h5open dE fn = .ok f →
      h5group f ("efield" ++ "/E_3DS_" ++ qid) = .error e →
      E3DS_read_hdf5 dE fn qid = .error e) ∧
    (h5open dO fn = .error e → opt_read_hdf5 dO fn qid = .error e) ∧
    (∀ f, h5open dO fn = .ok f →
      h5group f ("options" ++ "/opt-" ++ qid) = .error e →
      opt_read_hdf5 dO fn qid = .error e) := by
  refine ⟨?_, ?_, ?_, ?_⟩
  · intro h
    simp [E3DS_read_hdf5, h, bind, Except.bind]
  · intro f hopen hgrp
    simp only [E3DS_read_hdf5, bind, Except.bind]
    simp only [hopen]
    rw [hgrp]
  · intro h
    simp [opt_read_hdf5, h, bind, Except.bind]
  · intro f hopen hgrp
    simp only [opt_read_hdf5, bind, Except.bind]
    simp only [hopen]
    rw [hgrp]

/-- A one-file disk whose only file contains no group at all. -/
def oneEmptyE3File : Disk E3Group :=
  fun name => if name = "present.h5" then some (fun _ => none) else none

/-- C5 witness: a missing file propagates OSError, and a present file
without the group propagates KeyError, for both readers. -/
theorem read_paths_propagate_errors_witness :
    (h5open emptyE3Disk "gone.h5" = .error (.oserror "gone.h5") ∧
      E3DS_read_hdf5 emptyE3Disk "gone.h5" "q" =
        .error (.oserror "gone.h5")) ∧
    (h5group (fun _ => (none : Option E3Group))
        ("efield" ++ "/E_3DS_" ++ "q") =
        .error (.keyError ("efield" ++ "/E_3DS_" ++ "q")) ∧
      E3DS_read_hdf5 oneEmptyE3File "present.h5" "q" =
        .error (.keyError ("efield" ++ "/E_3DS_" ++ "q"))) ∧
    (h5open emptyOptDisk "gone.h5" = .error (.oserror "gone.h5") ∧
      opt_read_hdf5 emptyOptDisk "gone.h5" "q" =
        .error (.oserror "gone.h5")) :=
  ⟨⟨rfl, (read_paths_propagate_errors emptyE3Disk emptyOptDisk "gone.h5"
      "q" (.oserror "gone.h5")).1 rfl⟩,
    ⟨rfl, (read_paths_propagate_errors oneEmptyE3File emptyOptDisk
      "present.h5" "q" (.keyError ("efield" ++ "/E_3DS_" ++ "q"))).2.1
      (fun _ => none) (by simp [h5open, oneEmptyE3File]) rfl⟩,
    ⟨rfl, (read_paths_propagate_errors emptyE3Disk emptyOptDisk "gone.h5"
      "q" (.oserror "gone.h5")).2.2.1 rfl⟩⟩

/-! ## libmhd.py : quantity evaluation -/

/-- The class attribute LibMhd.quantities. -/
def LibMhd_quantities : List String :=
  ["br", "bphi", "bz", "er", "ephi", "ez"]

/-- LibMhd.evaluate: out starts as None; when the quantity is one of the
six known names, out is set to eval_mhd(R, phi, z, t)[quantity]; the final
`assert out is not None` raises AssertionError("Unknown quantity") exactly
when the quantity was not recognised.  eval_mhd (native library, out of
scope) is an explicit function argument returning the dict of evaluated
quantities. -/
def LibMhd_evaluate {α β : Type} (eval_mhd : α → α → α → α → String → β)
    (R phi z t : α) (quantity : String) : Except String β :=
  if quantity ∈ ["br", "bphi", "bz", "er", "ephi", "ez"] then
    .ok (eval_mhd R phi z t quantity)
  else
    .error "Unknown quantity"

/-- C6: LibMhd.evaluate returns exactly eval_mhd(R,phi,z,t)[quantity] for
the six field-component names and raises AssertionError for every other
quantity string. -/
theorem LibMhd_evaluate_spec {α β : Type}
    (eval_mhd : α → α → α → α → String → β) (R phi z t : α)
    (quantity : String) :
    (quantity ∈ LibMhd_quantities →
      LibMhd_evaluate eval_mhd R phi z t quantity =
        .ok (eval_mhd R phi z t quantity)) ∧
    (quantity ∉ LibMhd_quantities →
      LibMhd_evaluate eval_mhd R phi z t quantity =
        .error "Unknown quantity") := by
  constructor
  · intro h
    have h2 : quantity ∈ ["br", "bphi", "bz", "er", "ephi", "ez"] := h
    unfold LibMhd_evaluate
    rw [if_pos h2]
  · intro h
    have h2 : quantity ∉ ["br", "bphi", "bz", "er", "ephi", "ez"] := h
    unfold LibMhd_evaluate
    rw [if_neg h2]

/-- C6 witness: at a constant evaluation function, "br" is evaluated and
"psi" raises. -/
theorem LibMhd_evaluate_spec_witness :
    ("br" ∈ LibMhd_quantities ∧
      LibMhd_evaluate (fun _ _ _ _ _ => (0 : Int)) 1 2 3 4 "br" =
        .ok 0) ∧
    ("psi" ∉ LibMhd_quantities ∧
      LibMhd_evaluate (fun _ _ _ _ _ => (0 : Int)) 1 2 3 4 "psi" =
        .error "Unknown quantity") :=
  ⟨⟨by decide,
    (LibMhd_evaluate_spec (fun _ _ _ _ _ => (0 : Int)) 1 2 3 4 "br").1
      (by decide)⟩,
   ⟨by decide,
    (LibMhd_evaluate_spec (fun _ _ _ _ _ => (0 : Int)) 1 2 3 4 "psi").2
      (by decide)⟩⟩

/-! ## mrk_prt.eval_pitch -/

/-- mrk_prt.eval_pitch for one marker: read r, z, phi, vr, vz, vphi from
the file, evaluate br, bz, bphi through ascotpy.evaluate at (r, phi, z,
t=0), and return (vr*br + vz*bz + vphi*bphi) / (|B| |v|).  Real numbers
stand in for the IEEE doubles; exceptions from evaluate propagate through
the do-block as in Python. -/
noncomputable def mrk_prt_eval_pitch
    (eval_mhd : ℝ → ℝ → ℝ → ℝ → String → ℝ) (r phi z vr vphi vz : ℝ) :
    Except String ℝ := do
  let br ← LibMhd_evaluate eval_mhd r phi z 0 "br"
  let bz ← LibMhd_evaluate eval_mhd r phi z 0 "bz"
  let bphi ← LibMhd_evaluate eval_mhd r phi z 0 "bphi"
  let b := Real.sqrt (br ^ 2 + bz ^ 2 + bphi ^ 2)
  let v := Real.sqrt (vr ^ 2 + vz ^ 2 + vphi ^ 2)
  .ok ((vr * br + vz * bz + vphi * bphi) / (b * v))

/-- C7: eval_pitch returns the pitch (vr*br + vz*bz + vphi*bphi) divided
by |B|*|v|, with br, bz, bphi obtained from the native evaluation library
at (r, phi, z, t=0) and the Euclidean norms of (br,bz,bphi) and
(vr,vz,vphi); the three evaluate calls all succeed, so no error is
raised. -/
theorem mrk_prt_eval_pitch_spec
    (eval_mhd : ℝ → ℝ → ℝ → ℝ → String → ℝ) (r phi z vr vphi vz : ℝ) :
    mrk_prt_eval_pitch eval_mhd r phi z vr vphi vz =
      .ok ((vr * eval_mhd r phi z 0 "br" + vz * eval_mhd r phi z 0 "bz" +
          vphi * eval_mhd r phi z 0 "bphi") /
        (Real.sqrt (eval_mhd r phi z 0 "br" ^ 2 +
            eval_mhd r phi z 0 "bz" ^ 2 + eval_mhd r phi z 0 "bphi" ^ 2) *
          Real.sqrt (vr ^ 2 + vz ^ 2 + vphi ^ 2))) := rfl

/-! ## erad.py : radial-profile text reader -/

/-- Values of the dict returned by read_erad: raw strings (the comment
line and the unparsed n_rho token) and numeric columns. -/
inductive EradVal
  | s (x : String)
  | arr (xs : List ℚ)
deriving DecidableEq

/-- A radial-profile text file as the reader consumes it: the first
(comment) line, the whitespace tokens of the second line, and the numeric
table np.loadtxt parses from the remaining lines (the first two columns
of each row are used). -/
structure EradFile where
  comm1 : String
  line2 : List String
  rows : List (ℚ × ℚ)

/-- np.diff: consecutive differences. -/
def np_diff : List ℚ → List ℚ
  | a :: b :: t => (b - a) :: np_diff (b :: t)
  | _ => []

/-- Python max over a nonempty sequence. -/
def listMax (x : ℚ) (xs : List ℚ) : ℚ := xs.foldl max x

/-- Python min over a nonempty sequence. -/
def listMin (x : ℚ) (xs : List ℚ) : ℚ := xs.foldl min x

/-- read_erad: store the comment line, take the first token of the second
line as n_rho (kept as a string, never parsed), load the table, take
columns 0 and 1 as rho and dV_drho, then check the spacing of rho.  The
failure modes are translated faithfully: a blank second line raises
IndexError; fewer than two rows leave np.diff empty and max() raises
ValueError; and when max(diff)/min(diff) exceeds the tolerance 1.0001 the
code calls np.linspace(..., data['n_rho']) with the still-unparsed string
as the number of points, which raises TypeError, so the interpolation
branch never returns.  Within tolerance the dict is returned with no
interpolation. -/
def read_erad (f : EradFile) : Except String (List (String × EradVal)) :=
  match f.line2 with
  | [] => .error "IndexError: list index out of range"
  | n_rho :: _ =>
    let rho := f.rows.map Prod.fst
    let dV := f.rows.map Prod.snd
    match np_diff rho with
    | [] => .error "ValueError: max() arg is an empty sequence"
    | d :: ds =>
      if listMax d ds / listMin d ds > mkRat 10001 10000 then
        .error "TypeError: np.linspace num must be an integer, not str"
      else
        .ok [("comm1", .s f.comm1), ("n_rho", .s n_rho),
             ("rho", .arr rho), ("dV_drho", .arr dV)]

/-- C10: for a well-formed file whose rho column is linearly spaced within
tolerance (max consecutive difference over min consecutive difference at
most 1.0001, with positive spacing), read_erad returns rho and dV_drho
exactly equal to the first and second columns with no interpolation, and
n_rho is the raw unparsed string token of the second line. -/
theorem read_erad_within_tolerance (f : EradFile) (t : String)
    (rest : List String) (d : ℚ) (ds : List ℚ)
    (h2 : f.line2 = t :: rest)
    (hdiff : np_diff (f.rows.map Prod.fst) = d :: ds)
    (_hmin : 0 < listMin d ds)
    (htol : listMax d ds / listMin d ds ≤ mkRat 10001 10000) :
    read_erad f =
      .ok [("comm1", .s f.comm1), ("n_rho", .s t),
           ("rho", .arr (f.rows.map Prod.fst)),
           ("dV_drho", .arr (f.rows.map Prod.snd))] := by
  unfold read_erad
  rw [h2]
  simp only [hdiff]
  rw [if_neg (not_lt.mpr htol)]

/-- Concrete radial-profile file: comment, "2" as the n_rho token, and a
two-row table with rho column 0, 1. -/
def wEradFile : EradFile := ⟨"# dV/drho", ["2", "extra"], [(0, 5), (1, 6)]⟩

/-- C10 witness: the concrete file is within tolerance (single diff 1,
ratio 1) and reads back its columns verbatim with n_rho the raw string
"2". -/
theorem read_erad_within_tolerance_witness :
    wEradFile.line2 = "2" :: ["extra"] ∧
    np_diff (wEradFile.rows.map Prod.fst) = [1] ∧
    (0 : ℚ) < listMin 1 [] ∧
    listMax 1 [] / listMin 1 [] ≤ mkRat 10001 10000 ∧
    read_erad wEradFile =
      .ok [("comm1", .s "# dV/drho"), ("n_rho", .s "2"),
           ("rho", .arr [0, 1]), ("dV_drho", .arr [5, 6])] :=
  ⟨rfl, by simp [wEradFile, np_diff], by decide,
    by rw [listMax, listMin, List.foldl_nil, List.foldl_nil, div_one]
       decide,
    read_erad_within_tolerance wEradFile "2" ["extra"] 1 [] rfl
      (by simp [wEradFile, np_diff]) (by decide)
      (by rw [listMax, listMin, List.foldl_nil, List.foldl_nil, div_one]
          decide)⟩

end Ascot5
